import Mathlib

/-
Verification of the axis supervisor of the ODrive firmware
(src/Firmware/MotorControl/axis.cpp) against its natural-language
specification.  The definitions below are a shallow embedding of the
code: machine integers become Nat with explicit modular arithmetic,
floats become ℚ (or ℝ where the constant π is essential), fallible
calls become Bool/Option results, and the realtime control-loop
scaffold (declared in axis.hpp, which is not part of the sources)
is modelled from the specification where a claim depends on it.
-/

/-- Axis states, from the AxisState enumeration used throughout
axis.cpp (declared in axis.hpp; the constructor set is exactly the one
the spec lists in its data model). -/
inductive AxisState where
  | undefined
  | idle
  | startup_sequence
  | full_calibration_sequence
  | motor_calibration
  | encoder_index_search
  | encoder_dir_find
  | encoder_offset_calibration
  | lockin_spin
  | sensorless_control
  | closed_loop_control
  | open_loop_control
  | pwm_test
  deriving DecidableEq, Repr

/-- Lock-in spin phases (LOCKIN_STATE_*), per axis.cpp lines 188-247. -/
inductive LockinState where
  | inactive
  | ramp
  | accelerate
  | const_vel
  deriving DecidableEq, Repr

/-- The axis error bitset (error_).  Each ERROR_* bit of axis.cpp is a
Boolean field; `|=` becomes setting a field, `&= ~ERROR_X` becomes
clearing a field. -/
structure AxisError where
  invalid_state : Bool
  motor_disarmed : Bool
  brake_resistor_disarmed : Bool
  dc_bus_under_voltage : Bool
  dc_bus_over_voltage : Bool
  watchdog_timer_expired : Bool
  pos_ctrl_during_sensorless : Bool
  controller_failed : Bool
  deriving DecidableEq, Repr

/-- Pointwise or of two error bitsets (error_ |= other). -/
def errUnion (a b : AxisError) : AxisError :=
  ⟨a.invalid_state || b.invalid_state,
   a.motor_disarmed || b.motor_disarmed,
   a.brake_resistor_disarmed || b.brake_resistor_disarmed,
   a.dc_bus_under_voltage || b.dc_bus_under_voltage,
   a.dc_bus_over_voltage || b.dc_bus_over_voltage,
   a.watchdog_timer_expired || b.watchdog_timer_expired,
   a.pos_ctrl_during_sensorless || b.pos_ctrl_during_sensorless,
   a.controller_failed || b.controller_failed⟩

/-- error_ |= ERROR_INVALID_STATE. -/
def setInvalid (e : AxisError) : AxisError :=
  { e with invalid_state := true }

/-- The all-clear error bitset. -/
def noError : AxisError :=
  ⟨false, false, false, false, false, false, false, false⟩

/-! ## Step/direction callback (axis.cpp lines 76-82) -/

/-- Shallow embedding of Axis::step_cb (axis.cpp lines 76-82).
`dir_pin_set` is the result of `dir_gpio_->read() == GPIO_PIN_SET`. -/
def step_cb (step_dir_active : Bool) (dir_pin_set : Bool)
    (counts_per_step pos_setpoint : ℚ) : ℚ :=
  if step_dir_active then
    pos_setpoint + (if dir_pin_set then (1 : ℚ) else (-1 : ℚ)) * counts_per_step
  else
    pos_setpoint

/-! ## Watchdog (axis.cpp lines 168-186) -/

/-- Modulus of the uint32_t counters used by the watchdog. -/
def UINT32_MOD : ℕ := 4294967296

/-- The watchdog counters of the axis: watchdog_reset_value_ and
watchdog_current_value_ (uint32_t, embedded as ℕ below 2^32). -/
structure Watchdog where
  reset_value : ℕ
  current_value : ℕ
  deriving DecidableEq, Repr

/-- Shallow embedding of Axis::watchdog_feed (axis.cpp lines 169-171). -/
def watchdog_feed (w : Watchdog) : Watchdog :=
  { w with current_value := w.reset_value }

/-- Shallow embedding of Axis::watchdog_check (axis.cpp lines 174-186).
The decrement is the wrapping uint32_t `--` (adding 2^32 - 1 mod 2^32),
guarded by the explicit `current_value_ > 0` test of the code.  Returns
the new counters, the new error bitset, and the Bool result. -/
def watchdog_check (w : Watchdog) (e : AxisError) : Watchdog × AxisError × Bool :=
  if w.reset_value = 0 then (w, e, true)
  else if 0 < w.current_value then
    ({ w with current_value := (w.current_value + (UINT32_MOD - 1)) % UINT32_MOD }, e, true)
  else
    (w, { e with watchdog_timer_expired := true }, false)

/-! ## Sensorless control tick (axis.cpp lines 252-266) -/

/-- Modelled from the spec: the numeric value of
Controller::CTRL_MODE_POSITION_CONTROL from the controller interface
(controller.hpp is not part of the sources).  Only the comparison
"control mode is position control or higher" in axis.cpp line 254
depends on it. -/
def CTRL_MODE_POSITION_CONTROL : ℕ := 3

/-- Calls a control tick may issue to its sub-components, with their
arguments: controller_.update(pos, vel, &out) and
motor_.update(current, phase, vel). -/
inductive TickCall where
  | controller_update (pos vel : ℚ)
  | motor_update (current phase vel : ℚ)
  deriving DecidableEq, Repr

/-- Shallow embedding of the tick body of
Axis::run_sensorless_control_loop (axis.cpp lines 253-263).
`ctrl_out` is the result of controller_.update (none = failure),
`motor_ok` the result of motor_.update.  Returns the new error bitset,
the sub-component calls issued, and the Bool the body returns. -/
def run_sensorless_tick (control_mode : ℕ) (e : AxisError)
    (ctrl_out : Option ℚ) (pll_pos vel_estimate phase : ℚ)
    (motor_ok : Bool) : AxisError × List TickCall × Bool :=
  if CTRL_MODE_POSITION_CONTROL ≤ control_mode then
    ({ e with pos_ctrl_during_sensorless := true }, [], false)
  else
    match ctrl_out with
    | none => ({ e with controller_failed := true },
               [TickCall.controller_update pll_pos vel_estimate], false)
    | some current_setpoint =>
        (e,
         [TickCall.controller_update pll_pos vel_estimate,
          TickCall.motor_update current_setpoint phase vel_estimate],
         motor_ok)

/-! ## Open-loop control tick (axis.cpp lines 291-313) -/

/-- Modelled from the spec: the M_PI float constant used by axis.cpp
(embedded as a rational since the surrounding arithmetic is rational;
its numeric value is irrelevant to the claims about this tick). -/
def pi_f : ℚ := 3.14159265358979323846

/-- Shallow embedding of the tick body of
Axis::run_open_loop_control_loop (axis.cpp lines 294-309).  `wrapFn`
stands for wrap_pm_pi from utils.h (not part of the sources); the
sibling axis of axes[] is passed in through its observed fields.
Returns the new error bitset, the new motor_.phase_setpoint_, and the
Bool the body returns. -/
def run_open_loop_tick (phase_locked : Bool)
    (other_current_state : AxisState)
    (other_phase_setpoint other_vel_setpoint other_pole_pairs : ℚ)
    (vel_setpoint current_setpoint pole_pairs phase_setpoint dt : ℚ)
    (wrapFn : ℚ → ℚ) (e : AxisError) (motor_ok : Bool) :
    AxisError × ℚ × Bool :=
  if !phase_locked then
    let phase_vel := 2 * pi_f * vel_setpoint * pole_pairs
    let ps := wrapFn (phase_setpoint + phase_vel * dt)
    (e, ps, motor_ok)
  else if other_current_state ≠ AxisState.open_loop_control then
    (setInvalid e, phase_setpoint, false)
  else
    let phase_vel := 2 * pi_f * other_vel_setpoint * other_pole_pairs
    let ps := other_phase_setpoint
    (e, ps, motor_ok)

/-! ## Lock-in spin, spin states (axis.cpp lines 188-249)

The ramp phase, whose claim involves the constant π, is embedded over
ℝ further below.  The accelerate/constant-velocity bookkeeping here is
rational, with wrap_pm_pi kept abstract (it only feeds the motor
command, never a branch). -/

/-- The lockin sub-record of the axis configuration
(Config_t::lockin). -/
structure LockinConfig where
  current : ℚ
  ramp_time : ℚ
  ramp_distance : ℚ
  accel : ℚ
  vel : ℚ
  finish_distance : ℚ
  finish_on_vel : Bool
  finish_on_distance : Bool
  finish_on_enc_idx : Bool
  deriving DecidableEq, Repr

/-- Shallow embedding of the spin_done lambda of Axis::run_lockin_spin
(axis.cpp lines 207-216). -/
def spin_done (cfg : LockinConfig) (vel distance : ℚ)
    (index_found : Bool) (vel_override : Bool) : Bool :=
  let done0 := false
  let done1 := if cfg.finish_on_vel || vel_override then
                 done0 || decide (|cfg.vel| ≤ |vel|)
               else done0
  let done2 := if cfg.finish_on_distance then
                 done1 || decide (|cfg.finish_distance| ≤ |distance|)
               else done1
  let done3 := if cfg.finish_on_enc_idx then done2 || index_found else done2
  done3

/-- Observable events of the lock-in spin routine after the accelerate
phase: writes to lockin_state_, the conditional index subscription, and
iterations of the constant-velocity loop body. -/
inductive LockinEvent where
  | set_state (s : LockinState)
  | idx_subscribe
  | const_vel_tick
  deriving DecidableEq, Repr

/-- Shallow embedding of the constant-velocity loop body of
Axis::run_lockin_spin (axis.cpp lines 237-244), iterated by the
run_control_loop scaffold.  `fuel` bounds the iterations the scaffold
performs, `motor_ok k` is the result of motor_.update on iteration k,
`idxF k` the value of encoder_.index_found_ there, `wrapFn` stands for
wrap_pm_pi. -/
def const_vel_loop (cfg : LockinConfig) (dt : ℚ) (wrapFn : ℚ → ℚ)
    (motor_ok idxF : ℕ → Bool) :
    ℕ → ℚ → ℚ → ℚ → ℕ → List LockinEvent
  | 0, _, _, _, _ => []
  | fuel + 1, vel, distance, phase, k =>
    let distance' := distance + vel * dt
    let phase' := wrapFn (phase + vel * dt)
    LockinEvent.const_vel_tick ::
      (if motor_ok k then
         (if spin_done cfg vel distance' (idxF k) false then []
          else const_vel_loop cfg dt wrapFn motor_ok idxF fuel vel distance' phase' (k + 1))
       else [])

/-- Shallow embedding of Axis::run_lockin_spin after the accelerate
loop has returned (axis.cpp lines 230-248): the conditional index
subscription, the guarded constant-velocity phase (entered only when
spin_done() is still false, with vel snapped to cfg.vel), and the
final reset of lockin_state_ to INACTIVE. -/
def lockin_after_accelerate (cfg : LockinConfig) (dt : ℚ)
    (wrapFn : ℚ → ℚ) (motor_ok idxF : ℕ → Bool)
    (vel distance phase : ℚ) (index_found : Bool) (fuel : ℕ) :
    List LockinEvent :=
  (if !index_found then [LockinEvent.idx_subscribe] else []) ++
  (if !(spin_done cfg vel distance index_found false) then
     LockinEvent.set_state LockinState.const_vel ::
       const_vel_loop cfg dt wrapFn motor_ok idxF fuel cfg.vel distance phase 0
   else []) ++
  [LockinEvent.set_state LockinState.inactive]

/-! ## Idle loop events (axis.cpp lines 315-326, 443-446)

Modelled from the spec: the run_control_loop scaffold (declared in
axis.hpp, not part of the sources) repeatedly runs the supplied tick
body, here the trivial `return true` body of run_idle_loop; `ticks` is
the number of iterations the scaffold performs before an external
state request arrives. -/

/-- Observable events of dispatching AXIS_STATE_IDLE: the safety
disarm, the trivial idle ticks, and the arming attempt at idle exit. -/
inductive IdleEvent where
  | disarm
  | tick
  | arm_attempt
  deriving DecidableEq, Repr

/-- Shallow embedding of Axis::run_idle_loop (axis.cpp lines 315-326):
safety_critical_disarm_motor_pwm first, then the trivial ticks. -/
def run_idle_loop_events (ticks : ℕ) : List IdleEvent :=
  IdleEvent.disarm :: List.replicate ticks IdleEvent.tick

/-- The AXIS_STATE_IDLE dispatch case of Axis::run_state_machine_loop
(axis.cpp lines 443-446): run_idle_loop, then `status = motor_.arm()`. -/
def idle_dispatch_events (ticks : ℕ) : List IdleEvent :=
  run_idle_loop_events ticks ++ [IdleEvent.arm_attempt]

/-! ## Lock-in ramp phase over ℝ (axis.cpp lines 188-199)

The ramp tick commands phase wrap_pm_pi(ramp_distance * x) and current
magnitude current * x, then advances x by current_meas_period /
ramp_time; the claim about it involves the real constant π, so this
part is embedded over ℝ. -/

open Real in
/-- Modelled from the spec: wrap_pm_pi from utils.h (not part of the
sources), the wrap of an angle into [-π, π): fmodf_pos(x + π, 2π) - π. -/
noncomputable def wrap_pm_pi (x : ℝ) : ℝ :=
  (x + π) - 2 * π * ⌊(x + π) / (2 * π)⌋ - π

/-- The ramp progress variable x of Axis::run_lockin_spin before tick
n: x starts at 0 and each tick ends with `x += dt / ramp_time`
(axis.cpp lines 191, 195), so tick n reads the value accumulated by n
increments. -/
noncomputable def ramp_x (ramp_time dt : ℝ) : ℕ → ℝ
  | 0 => 0
  | n + 1 => ramp_x ramp_time dt n + dt / ramp_time

/-- The current magnitude `I_mag = config_.lockin.current * x`
commanded by ramp tick n (axis.cpp line 194). -/
noncomputable def ramp_I_mag (current ramp_time dt : ℝ) (n : ℕ) : ℝ :=
  current * ramp_x ramp_time dt n

/-- The phase `wrap_pm_pi(config_.lockin.ramp_distance * x)` commanded
by ramp tick n (axis.cpp line 193). -/
noncomputable def ramp_phase (ramp_distance ramp_time dt : ℝ) (n : ℕ) : ℝ :=
  wrap_pm_pi (ramp_distance * ramp_x ramp_time dt n)

/-! ## State machine and task chain (axis.cpp lines 329-460) -/

/-- The startup_* flags of Config_t consulted when expanding
AXIS_STATE_STARTUP_SEQUENCE (axis.cpp lines 354-365). -/
structure AxisConfig where
  startup_motor_calibration : Bool
  startup_encoder_index_search : Bool
  startup_encoder_offset_calibration : Bool
  startup_closed_loop_control : Bool
  startup_sensorless_control : Bool
  deriving DecidableEq, Repr

/-- The task-chain entries written when a request is expanded, before
the terminating UNDEFINED (axis.cpp lines 354-375).  `use_index` is
encoder_.config_.use_index. -/
def expand_core (req : AxisState) (cfg : AxisConfig) (use_index : Bool) :
    List AxisState :=
  if req = AxisState.startup_sequence then
    (if cfg.startup_motor_calibration then [AxisState.motor_calibration] else []) ++
    (if cfg.startup_encoder_index_search && use_index then [AxisState.encoder_index_search] else []) ++
    (if cfg.startup_encoder_offset_calibration then [AxisState.encoder_offset_calibration] else []) ++
    (if cfg.startup_closed_loop_control then [AxisState.closed_loop_control]
     else if cfg.startup_sensorless_control then [AxisState.sensorless_control]
     else []) ++
    [AxisState.idle]
  else if req = AxisState.full_calibration_sequence then
    [AxisState.motor_calibration] ++
    (if use_index then [AxisState.encoder_index_search] else []) ++
    [AxisState.encoder_offset_calibration, AxisState.idle]
  else if req ≠ AxisState.undefined then
    [req, AxisState.idle]
  else
    []

/-- The full sequence of task-chain entries a request expansion writes,
including the terminating UNDEFINED (axis.cpp line 376). -/
def expand_request (req : AxisState) (cfg : AxisConfig) (use_index : Bool) :
    List AxisState :=
  expand_core req cfg use_index ++ [AxisState.undefined]

/-- Writing the expansion into the task-chain array: positions 0..k
are overwritten, entries beyond the written terminator keep their old
values (axis.cpp lines 352-376). -/
def loadChain (req : AxisState) (cfg : AxisConfig) (use_index : Bool)
    (c : List AxisState) : List AxisState :=
  expand_request req cfg use_index ++ c.drop (expand_request req cfg use_index).length

/-- The state of the axis supervisor visible to the state-machine
loop: the task chain (whose position 0 is current_state_, axis.cpp
line 382), the error bitset, and the requested_state_ mailbox. -/
structure SMState where
  chain : List AxisState
  error : AxisError
  requested : AxisState
  deriving DecidableEq, Repr

/-- Modelled from the spec: the environment one state-machine
iteration interacts with through the run_control_loop scaffold and the
sub-components (all declared in axis.hpp, not part of the sources):
the outcome of the dispatched task, the result of motor_.arm() at idle
exit, the request that releases the idle loop, a request that may
arrive while a non-idle task runs, error bits latched by sub-component
checks during the task, and the configuration guards consulted before
dispatch. -/
structure SMEnv where
  taskOk : Bool
  armOk : Bool
  newRequest : AxisState
  reqDuringTask : AxisState
  taskErr : AxisError
  direction_zero : Bool
  encoder_ready : Bool
  idx_unidirectional : Bool
  deriving DecidableEq, Repr

/-- Shallow embedding of the dispatch switch of
Axis::run_state_machine_loop (axis.cpp lines 387-453): returns the
status and the state after the dispatched task ran.  The
`goto invalid_state_label` branches set ERROR_INVALID_STATE and yield
status false without running the task; the idle branch blocks until a
request is pending (axis.cpp line 320) and then attempts to arm. -/
def dispatch (env : SMEnv) (s : SMState) : Bool × SMState :=
  match s.chain.getD 0 AxisState.undefined with
  | AxisState.pwm_test =>
      (env.taskOk, { s with error := errUnion s.error env.taskErr, requested := env.reqDuringTask })
  | AxisState.motor_calibration =>
      (env.taskOk, { s with error := errUnion s.error env.taskErr, requested := env.reqDuringTask })
  | AxisState.encoder_index_search =>
      if env.idx_unidirectional && env.direction_zero then
        (false, { s with error := setInvalid s.error })
      else
        (env.taskOk, { s with error := errUnion s.error env.taskErr, requested := env.reqDuringTask })
  | AxisState.encoder_dir_find =>
      (env.taskOk, { s with error := errUnion s.error env.taskErr, requested := env.reqDuringTask })
  | AxisState.encoder_offset_calibration =>
      (env.taskOk, { s with error := errUnion s.error env.taskErr, requested := env.reqDuringTask })
  | AxisState.lockin_spin =>
      if env.direction_zero then
        (false, { s with error := setInvalid s.error })
      else
        (env.taskOk, { s with error := errUnion s.error env.taskErr, requested := env.reqDuringTask })
  | AxisState.sensorless_control =>
      if env.direction_zero then
        (false, { s with error := setInvalid s.error })
      else
        (env.taskOk, { s with error := errUnion s.error env.taskErr, requested := env.reqDuringTask })
  | AxisState.closed_loop_control =>
      if env.direction_zero || !env.encoder_ready then
        (false, { s with error := setInvalid s.error })
      else
        (env.taskOk, { s with error := errUnion s.error env.taskErr, requested := env.reqDuringTask })
  | AxisState.open_loop_control =>
      if env.direction_zero then
        (false, { s with error := setInvalid s.error })
      else
        (env.taskOk, { s with error := errUnion s.error env.taskErr, requested := env.reqDuringTask })
  | AxisState.idle =>
      (env.armOk, { s with error := errUnion s.error env.taskErr, requested := env.newRequest })
  | AxisState.undefined =>
      (false, { s with error := setInvalid s.error })
  | AxisState.startup_sequence =>
      (false, { s with error := setInvalid s.error })
  | AxisState.full_calibration_sequence =>
      (false, { s with error := setInvalid s.error })

/-- The memmove shift of the task chain on success (axis.cpp line
459): every entry moves left one place and the last entry keeps its
old value. -/
def taskShift : List AxisState → List AxisState
  | [] => []
  | a :: t => t ++ [(a :: t).getLastD AxisState.undefined]

/-- `current_state_ = AXIS_STATE_IDLE` on failure (axis.cpp line 457):
position 0 of the chain is overwritten, nothing else moves. -/
def setIdleHead : List AxisState → List AxisState
  | [] => []
  | _ :: t => AxisState.idle :: t

/-- The advance step at the bottom of the loop (axis.cpp lines
455-459). -/
def advanceChain (status : Bool) (c : List AxisState) : List AxisState :=
  if status then taskShift c else setIdleHead c

/-- Accepting a pending request (axis.cpp lines 352-379): the chain is
reloaded, the mailbox is cleared, and ERROR_INVALID_STATE is
auto-cleared. -/
def acceptRequest (cfg : AxisConfig) (use_index : Bool) (s : SMState) : SMState :=
  { chain := loadChain s.requested cfg use_index s.chain,
    error := { s.error with invalid_state := false },
    requested := AxisState.undefined }

/-- The load guard at the top of the loop (axis.cpp line 352). -/
def loadIfRequested (cfg : AxisConfig) (use_index : Bool) (s : SMState) : SMState :=
  if s.requested = AxisState.undefined then s else acceptRequest cfg use_index s

/-- Dispatch followed by the advance step. -/
def dispatchAdvance (env : SMEnv) (s : SMState) : SMState :=
  let r := dispatch env s
  { r.2 with chain := advanceChain r.1 r.2.chain }

/-- One full iteration of Axis::run_state_machine_loop (axis.cpp
lines 350-460). -/
def smStep (cfg : AxisConfig) (use_index : Bool) (env : SMEnv) (s : SMState) : SMState :=
  dispatchAdvance env (loadIfRequested cfg use_index s)

/-- Iterating the state machine under a stream of environments. -/
def smRun (cfg : AxisConfig) (use_index : Bool) (envs : ℕ → SMEnv)
    (s : SMState) : ℕ → SMState
  | 0 => s
  | n + 1 => smStep cfg use_index (envs n) (smRun cfg use_index envs s n)

/-- The state an iteration dispatches: position 0 of the (possibly
just reloaded) task chain. -/
def dispatched (cfg : AxisConfig) (use_index : Bool) (s : SMState) : AxisState :=
  (loadIfRequested cfg use_index s).chain.getD 0 AxisState.undefined

/-- The stream of dispatched states along a run. -/
def smTrace (cfg : AxisConfig) (use_index : Bool) (envs : ℕ → SMEnv)
    (s : SMState) (n : ℕ) : AxisState :=
  dispatched cfg use_index (smRun cfg use_index envs s n)

/-- Chains that agree up to and including the first UNDEFINED
terminator (entries beyond the terminator are never dispatched, so
they are behaviourally irrelevant). -/
def chainAgree : List AxisState → List AxisState → Bool
  | [], [] => true
  | a :: t, b :: u =>
      decide (a = b) && (decide (a = AxisState.undefined) || chainAgree t u)
  | _, _ => false

/-- The simulation relation for the discard property: equal error and
mailbox state, equal chain capacity, and chains that are either about
to be overwritten by a pending request, or agree up to their
terminator, or both sit at a blocking IDLE. -/
def smRel (s s' : SMState) : Prop :=
  s.error = s'.error ∧ s.requested = s'.requested ∧
  s.chain.length = s'.chain.length ∧ 0 < s.chain.length ∧
  (s.requested ≠ AxisState.undefined ∨
   chainAgree s.chain s'.chain = true ∨
   (s.chain.getD 0 AxisState.undefined = AxisState.idle ∧
    s'.chain.getD 0 AxisState.undefined = AxisState.idle))

/-- A configuration with every startup_* flag cleared. -/
def cfgAllFalse : AxisConfig := ⟨false, false, false, false, false⟩

/-- A concrete environment whose idle exit carries an IDLE request. -/
def envIdleReq : SMEnv :=
  ⟨false, false, AxisState.idle, AxisState.undefined, noError, false, false, false⟩

/-- The constant stream of that environment. -/
def envStream : ℕ → SMEnv := fun _ => envIdleReq

/-! ## Helper lemmas about the task-chain operations -/

theorem taskShift_length (c : List AxisState) : (taskShift c).length = c.length := by
  cases c with
  | nil => rfl
  | cons a t => simp [taskShift]

theorem setIdleHead_length (c : List AxisState) : (setIdleHead c).length = c.length := by
  cases c with
  | nil => rfl
  | cons a t => simp [setIdleHead]

theorem advanceChain_length (b : Bool) (c : List AxisState) :
    (advanceChain b c).length = c.length := by
  cases b <;> simp [advanceChain, taskShift_length, setIdleHead_length]

theorem setIdleHead_getD0 (c : List AxisState) (h : 0 < c.length) :
    (setIdleHead c).getD 0 AxisState.undefined = AxisState.idle := by
  cases c with
  | nil => simp at h
  | cons a t => rfl

theorem taskShift_getD (c : List AxisState) (i : ℕ) (h : i + 1 < c.length) :
    (taskShift c).getD i AxisState.undefined = c.getD (i + 1) AxisState.undefined := by
  cases c with
  | nil => simp at h
  | cons a t =>
    have ht : i < t.length := by
      simpa using h
    rw [taskShift, List.getD_append _ _ _ _ ht, List.getD_cons_succ]

theorem chainAgree_head (c c' : List AxisState) (h : chainAgree c c' = true) :
    c.getD 0 AxisState.undefined = c'.getD 0 AxisState.undefined := by
  cases c with
  | nil =>
    cases c' with
    | nil => rfl
    | cons b u => simp [chainAgree] at h
  | cons a t =>
    cases c' with
    | nil => simp [chainAgree] at h
    | cons b u =>
      simp only [chainAgree, Bool.and_eq_true, decide_eq_true_eq] at h
      simp [h.1]

theorem chainAgree_eq_of_no_undef :
    ∀ t u : List AxisState, chainAgree t u = true → AxisState.undefined ∉ t → t = u := by
  intro t
  induction t with
  | nil =>
    intro u h _
    cases u with
    | nil => rfl
    | cons b v => simp [chainAgree] at h
  | cons a t ih =>
    intro u h hm
    cases u with
    | nil => simp [chainAgree] at h
    | cons b v =>
      simp only [chainAgree, Bool.and_eq_true, Bool.or_eq_true, decide_eq_true_eq] at h
      obtain ⟨hab, hor⟩ := h
      have ha : a ≠ AxisState.undefined := by
        intro hu
        exact hm (hu ▸ List.mem_cons_self a t)
      have htv : chainAgree t v = true := by
        rcases hor with h1 | h2
        · exact absurd h1 ha
        · exact h2
      have hrest : t = v := ih v htv (fun hmem => hm (List.mem_cons_of_mem a hmem))
      rw [hab, hrest]

theorem chainAgree_append_last :
    ∀ (t u : List AxisState) (x y : AxisState),
      t.length = u.length → chainAgree t u = true →
      (x = y ∨ AxisState.undefined ∈ t) →
      chainAgree (t ++ [x]) (u ++ [y]) = true := by
  intro t
  induction t with
  | nil =>
    intro u x y hl h hxy
    cases u with
    | nil =>
      rcases hxy with h1 | h2
      · subst h1
        simp [chainAgree]
      · simp at h2
    | cons b v => simp at hl
  | cons a t ih =>
    intro u x y hl h hxy
    cases u with
    | nil => simp at hl
    | cons b v =>
      simp only [chainAgree, Bool.and_eq_true, Bool.or_eq_true, decide_eq_true_eq] at h
      obtain ⟨hab, hor⟩ := h
      simp only [List.cons_append, chainAgree, Bool.and_eq_true, Bool.or_eq_true,
        decide_eq_true_eq]
      refine ⟨hab, ?_⟩
      by_cases ha : a = AxisState.undefined
      · exact Or.inl ha
      · have htv : chainAgree t v = true := by
          rcases hor with h1 | h2
          · exact absurd h1 ha
          · exact h2
        refine Or.inr (ih v x y (by simpa using hl) htv ?_)
        rcases hxy with h1 | h2
        · exact Or.inl h1
        · rcases List.mem_cons.mp h2 with hh | hh
          · exact absurd hh.symm ha
          · exact Or.inr hh

theorem chainAgree_taskShift (c c' : List AxisState) (hl : c.length = c'.length)
    (h : chainAgree c c' = true)
    (hhd : c.getD 0 AxisState.undefined ≠ AxisState.undefined) :
    chainAgree (taskShift c) (taskShift c') = true := by
  cases c with
  | nil =>
    cases c' with
    | nil => simpa [taskShift] using h
    | cons b u => simp [chainAgree] at h
  | cons a t =>
    cases c' with
    | nil => simp [chainAgree] at h
    | cons b u =>
      simp only [chainAgree, Bool.and_eq_true, Bool.or_eq_true, decide_eq_true_eq] at h
      obtain ⟨hab, hor⟩ := h
      have ha : a ≠ AxisState.undefined := by simpa using hhd
      have htu : chainAgree t u = true := by
        rcases hor with h1 | h2
        · exact absurd h1 ha
        · exact h2
      have hlt : t.length = u.length := by simpa using hl
      subst hab
      simp only [taskShift]
      apply chainAgree_append_last t u _ _ hlt htu
      by_cases hm : AxisState.undefined ∈ t
      · exact Or.inr hm
      · left
        have hJ := chainAgree_eq_of_no_undef t u htu hm
        subst hJ
        rfl

theorem chainAgree_append_of_mem :
    ∀ p v w : List AxisState, AxisState.undefined ∈ p →
      chainAgree (p ++ v) (p ++ w) = true := by
  intro p
  induction p with
  | nil =>
    intro v w h
    simp at h
  | cons a q ih =>
    intro v w h
    simp only [List.cons_append, chainAgree, Bool.and_eq_true, Bool.or_eq_true,
      decide_eq_true_eq]
    refine ⟨by trivial, ?_⟩
    by_cases ha : a = AxisState.undefined
    · exact Or.inl ha
    · refine Or.inr (ih v w ?_)
      rcases List.mem_cons.mp h with hh | hh
      · exact absurd hh.symm ha
      · exact hh

theorem undef_mem_expand (req : AxisState) (cfg : AxisConfig) (ui : Bool) :
    AxisState.undefined ∈ expand_request req cfg ui := by
  simp [expand_request]

theorem expand_length_pos (req : AxisState) (cfg : AxisConfig) (ui : Bool) :
    0 < (expand_request req cfg ui).length := by
  simp [expand_request]

theorem loadChain_length_eq (req : AxisState) (cfg : AxisConfig) (ui : Bool)
    (c c' : List AxisState) (hl : c.length = c'.length) :
    (loadChain req cfg ui c).length = (loadChain req cfg ui c').length := by
  simp [loadChain, hl]

theorem loadChain_length_pos (req : AxisState) (cfg : AxisConfig) (ui : Bool)
    (c : List AxisState) : 0 < (loadChain req cfg ui c).length := by
  have h := expand_length_pos req cfg ui
  simp only [loadChain, List.length_append]
  omega

theorem loadChain_getD0 (req : AxisState) (cfg : AxisConfig) (ui : Bool)
    (c : List AxisState) :
    (loadChain req cfg ui c).getD 0 AxisState.undefined =
      (expand_request req cfg ui).getD 0 AxisState.undefined :=
  List.getD_append _ _ _ _ (expand_length_pos req cfg ui)

theorem loadChain_agree (req : AxisState) (cfg : AxisConfig) (ui : Bool)
    (c c' : List AxisState) :
    chainAgree (loadChain req cfg ui c) (loadChain req cfg ui c') = true :=
  chainAgree_append_of_mem _ _ _ (undef_mem_expand req cfg ui)

/-! ## The simulation argument: entries beyond the chain terminator are
behaviourally irrelevant -/

theorem advance_smRel_req (b : Bool) (e : AxisError) (r : AxisState)
    (hr : r ≠ AxisState.undefined) (c c' : List AxisState)
    (hl : c.length = c'.length) (hp : 0 < c.length) :
    smRel ⟨advanceChain b c, e, r⟩ ⟨advanceChain b c', e, r⟩ := by
  refine ⟨rfl, rfl, by simp [advanceChain_length, hl], ?_, Or.inl hr⟩
  simpa [advanceChain_length] using hp

theorem advance_smRel (b : Bool) (e : AxisError) (r : AxisState)
    (c c' : List AxisState) (hl : c.length = c'.length) (hp : 0 < c.length)
    (hag : chainAgree c c' = true)
    (hhd : b = true → c.getD 0 AxisState.undefined ≠ AxisState.undefined) :
    smRel ⟨advanceChain b c, e, r⟩ ⟨advanceChain b c', e, r⟩ := by
  cases b with
  | false =>
    refine ⟨rfl, rfl, by simp [advanceChain_length, hl],
      by simpa [advanceChain_length] using hp, Or.inr (Or.inr ⟨?_, ?_⟩)⟩
    · simpa [advanceChain] using setIdleHead_getD0 c hp
    · simpa [advanceChain] using setIdleHead_getD0 c' (hl ▸ hp)
  | true =>
    refine ⟨rfl, rfl, by simp [advanceChain_length, hl],
      by simpa [advanceChain_length] using hp, Or.inr (Or.inl ?_)⟩
    simpa [advanceChain] using chainAgree_taskShift c c' hl hag (hhd rfl)

theorem step_core (env : SMEnv) (henv : env.newRequest ≠ AxisState.undefined)
    (s s' : SMState) (he : s.error = s'.error) (hr : s.requested = s'.requested)
    (hl : s.chain.length = s'.chain.length) (hp : 0 < s.chain.length)
    (hag : chainAgree s.chain s'.chain = true) :
    smRel (dispatchAdvance env s) (dispatchAdvance env s') := by
  have hhd := chainAgree_head _ _ hag
  cases hcs : s.chain.getD 0 AxisState.undefined with
  | undefined =>
    have hcs' := hhd.symm.trans hcs
    simp only [dispatchAdvance, dispatch, hcs, hcs', he, hr]
    exact advance_smRel false _ _ _ _ hl hp hag (fun hb => by simp at hb)
  | idle =>
    have hcs' := hhd.symm.trans hcs
    simp only [dispatchAdvance, dispatch, hcs, hcs', he]
    exact advance_smRel_req env.armOk _ _ henv _ _ hl hp
  | startup_sequence =>
    have hcs' := hhd.symm.trans hcs
    simp only [dispatchAdvance, dispatch, hcs, hcs', he, hr]
    exact advance_smRel false _ _ _ _ hl hp hag (fun hb => by simp at hb)
  | full_calibration_sequence =>
    have hcs' := hhd.symm.trans hcs
    simp only [dispatchAdvance, dispatch, hcs, hcs', he, hr]
    exact advance_smRel false _ _ _ _ hl hp hag (fun hb => by simp at hb)
  | motor_calibration =>
    have hcs' := hhd.symm.trans hcs
    simp only [dispatchAdvance, dispatch, hcs, hcs', he]
    exact advance_smRel env.taskOk _ _ _ _ hl hp hag (fun _ => by rw [hcs]; simp)
  | encoder_index_search =>
    have hcs' := hhd.symm.trans hcs
    cases hg : env.idx_unidirectional && env.direction_zero with
    | false =>
      simp only [dispatchAdvance, dispatch, hcs, hcs', hg, he, Bool.false_eq_true,
        if_false]
      exact advance_smRel env.taskOk _ _ _ _ hl hp hag (fun _ => by rw [hcs]; simp)
    | true =>
      simp only [dispatchAdvance, dispatch, hcs, hcs', hg, he, hr, if_true]
      exact advance_smRel false _ _ _ _ hl hp hag (fun hb => by simp at hb)
  | encoder_dir_find =>
    have hcs' := hhd.symm.trans hcs
    simp only [dispatchAdvance, dispatch, hcs, hcs', he]
    exact advance_smRel env.taskOk _ _ _ _ hl hp hag (fun _ => by rw [hcs]; simp)
  | encoder_offset_calibration =>
    have hcs' := hhd.symm.trans hcs
    simp only [dispatchAdvance, dispatch, hcs, hcs', he]
    exact advance_smRel env.taskOk _ _ _ _ hl hp hag (fun _ => by rw [hcs]; simp)
  | lockin_spin =>
    have hcs' := hhd.symm.trans hcs
    cases hg : env.direction_zero with
    | false =>
      simp only [dispatchAdvance, dispatch, hcs, hcs', hg, he, Bool.false_eq_true,
        if_false]
      exact advance_smRel env.taskOk _ _ _ _ hl hp hag (fun _ => by rw [hcs]; simp)
    | true =>
      simp only [dispatchAdvance, dispatch, hcs, hcs', hg, he, hr, if_true]
      exact advance_smRel false _ _ _ _ hl hp hag (fun hb => by simp at hb)
  | sensorless_control =>
    have hcs' := hhd.symm.trans hcs
    cases hg : env.direction_zero with
    | false =>
      simp only [dispatchAdvance, dispatch, hcs, hcs', hg, he, Bool.false_eq_true,
        if_false]
      exact advance_smRel env.taskOk _ _ _ _ hl hp hag (fun _ => by rw [hcs]; simp)
    | true =>
      simp only [dispatchAdvance, dispatch, hcs, hcs', hg, he, hr, if_true]
      exact advance_smRel false _ _ _ _ hl hp hag (fun hb => by simp at hb)
  | closed_loop_control =>
    have hcs' := hhd.symm.trans hcs
    cases hg : env.direction_zero || !env.encoder_ready with
    | false =>
      simp only [dispatchAdvance, dispatch, hcs, hcs', hg, he, Bool.false_eq_true,
        if_false]
      exact advance_smRel env.taskOk _ _ _ _ hl hp hag (fun _ => by rw [hcs]; simp)
    | true =>
      simp only [dispatchAdvance, dispatch, hcs, hcs', hg, he, hr, if_true]
      exact advance_smRel false _ _ _ _ hl hp hag (fun hb => by simp at hb)
  | open_loop_control =>
    have hcs' := hhd.symm.trans hcs
    cases hg : env.direction_zero with
    | false =>
      simp only [dispatchAdvance, dispatch, hcs, hcs', hg, he, Bool.false_eq_true,
        if_false]
      exact advance_smRel env.taskOk _ _ _ _ hl hp hag (fun _ => by rw [hcs]; simp)
    | true =>
      simp only [dispatchAdvance, dispatch, hcs, hcs', hg, he, hr, if_true]
      exact advance_smRel false _ _ _ _ hl hp hag (fun hb => by simp at hb)
  | pwm_test =>
    have hcs' := hhd.symm.trans hcs
    simp only [dispatchAdvance, dispatch, hcs, hcs', he]
    exact advance_smRel env.taskOk _ _ _ _ hl hp hag (fun _ => by rw [hcs]; simp)

theorem smRel_step (cfg : AxisConfig) (ui : Bool) (env : SMEnv)
    (henv : env.newRequest ≠ AxisState.undefined)
    (s s' : SMState) (h : smRel s s') :
    smRel (smStep cfg ui env s) (smStep cfg ui env s') := by
  obtain ⟨he, hr, hl, hp, hd⟩ := h
  by_cases hq : s.requested = AxisState.undefined
  · have hq' : s'.requested = AxisState.undefined := hr ▸ hq
    simp only [smStep, loadIfRequested]
    rw [if_pos hq, if_pos hq']
    rcases hd with hbad | hag | hidle
    · exact absurd hq hbad
    · exact step_core env henv s s' he hr hl hp hag
    · obtain ⟨hi, hi'⟩ := hidle
      simp only [dispatchAdvance, dispatch, hi, hi', he]
      exact advance_smRel_req env.armOk _ _ henv _ _ hl hp
  · have hq' : s'.requested ≠ AxisState.undefined := hr ▸ hq
    simp only [smStep, loadIfRequested]
    rw [if_neg hq, if_neg hq']
    apply step_core env henv
    · simp [acceptRequest, he]
    · rfl
    · show (loadChain s.requested cfg ui s.chain).length =
        (loadChain s'.requested cfg ui s'.chain).length
      rw [← hr]
      exact loadChain_length_eq _ _ _ _ _ hl
    · exact loadChain_length_pos _ _ _ _
    · show chainAgree (loadChain s.requested cfg ui s.chain)
        (loadChain s'.requested cfg ui s'.chain) = true
      rw [← hr]
      exact loadChain_agree _ _ _ _ _

theorem smRel_run (cfg : AxisConfig) (ui : Bool) (envs : ℕ → SMEnv)
    (hv : ∀ k, (envs k).newRequest ≠ AxisState.undefined)
    (s s' : SMState) (h : smRel s s') (n : ℕ) :
    smRel (smRun cfg ui envs s n) (smRun cfg ui envs s' n) := by
  induction n with
  | zero => exact h
  | succ n ih => exact smRel_step cfg ui (envs n) (hv n) _ _ ih

theorem dispatched_eq (cfg : AxisConfig) (ui : Bool) (s s' : SMState)
    (h : smRel s s') : dispatched cfg ui s = dispatched cfg ui s' := by
  obtain ⟨he, hr, hl, hp, hd⟩ := h
  by_cases hq : s.requested = AxisState.undefined
  · have hq' : s'.requested = AxisState.undefined := hr ▸ hq
    simp only [dispatched, loadIfRequested]
    rw [if_pos hq, if_pos hq']
    rcases hd with hbad | hag | hidle
    · exact absurd hq hbad
    · exact chainAgree_head _ _ hag
    · rw [hidle.1, hidle.2]
  · have hq' : s'.requested ≠ AxisState.undefined := hr ▸ hq
    simp only [dispatched, loadIfRequested]
    rw [if_neg hq, if_neg hq']
    show (loadChain s.requested cfg ui s.chain).getD 0 AxisState.undefined =
      (loadChain s'.requested cfg ui s'.chain).getD 0 AxisState.undefined
    rw [← hr, loadChain_getD0, loadChain_getD0]

theorem smTrace_eq (cfg : AxisConfig) (ui : Bool) (envs : ℕ → SMEnv)
    (hv : ∀ k, (envs k).newRequest ≠ AxisState.undefined)
    (s s' : SMState) (h : smRel s s') (n : ℕ) :
    smTrace cfg ui envs s n = smTrace cfg ui envs s' n :=
  dispatched_eq cfg ui _ _ (smRel_run cfg ui envs hv s s' h n)

/-! ## Helper lemmas for the lock-in ramp and the idle event list -/

theorem ramp_x_eq (rt dt : ℝ) (n : ℕ) : ramp_x rt dt n = n * (dt / rt) := by
  induction n with
  | zero => simp [ramp_x]
  | succ n ih =>
    rw [ramp_x, ih]
    push_cast
    ring

theorem ramp_x_nonneg (rt dt : ℝ) (hrt : 0 < rt) (hdt : 0 ≤ dt) (n : ℕ) :
    0 ≤ ramp_x rt dt n := by
  rw [ramp_x_eq]
  exact mul_nonneg (Nat.cast_nonneg n) (div_nonneg hdt hrt.le)

theorem ramp_x_mono (rt dt : ℝ) (hrt : 0 < rt) (hdt : 0 ≤ dt) {m n : ℕ}
    (hmn : m ≤ n) : ramp_x rt dt m ≤ ramp_x rt dt n := by
  rw [ramp_x_eq, ramp_x_eq]
  exact mul_le_mul_of_nonneg_right (Nat.cast_le.mpr hmn) (div_nonneg hdt hrt.le)

theorem wrap_pm_pi_eq_self (y : ℝ) (h1 : -Real.pi ≤ y) (h2 : y < Real.pi) :
    wrap_pm_pi y = y := by
  have hpi := Real.pi_pos
  have h2pi : (0 : ℝ) < 2 * Real.pi := by linarith
  have hfloor : ⌊(y + Real.pi) / (2 * Real.pi)⌋ = 0 := by
    rw [Int.floor_eq_zero_iff, Set.mem_Ico]
    constructor
    · exact div_nonneg (by linarith) h2pi.le
    · rw [div_lt_one h2pi]
      linarith
  rw [wrap_pm_pi, hfloor]
  push_cast
  ring

theorem getD_replicate_tick (n j : ℕ) (h : j < n) :
    (List.replicate n IdleEvent.tick).getD j IdleEvent.disarm = IdleEvent.tick := by
  induction n generalizing j with
  | zero => omega
  | succ n ih =>
    rw [List.replicate_succ]
    cases j with
    | zero => rfl
    | succ j =>
      rw [List.getD_cons_succ]
      exact ih j (by omega)

/-! ## Claim theorems -/

/-- C3: in a sensorless-control tick whose controller control_mode is
position control or higher, the tick sets
ERROR_POS_CTRL_DURING_SENSORLESS and returns false without invoking
controller_.update or motor_.update (axis.cpp lines 253-263). -/
theorem sensorless_rejects_position_control (control_mode : ℕ) (e : AxisError)
    (ctrl_out : Option ℚ) (pll_pos vel_estimate phase : ℚ) (motor_ok : Bool)
    (h : CTRL_MODE_POSITION_CONTROL ≤ control_mode) :
    run_sensorless_tick control_mode e ctrl_out pll_pos vel_estimate phase motor_ok
      = ({ e with pos_ctrl_during_sensorless := true }, [], false) ∧
    ∀ call : TickCall,
      call ∉ (run_sensorless_tick control_mode e ctrl_out pll_pos vel_estimate phase
        motor_ok).2.1 := by
  have h1 : run_sensorless_tick control_mode e ctrl_out pll_pos vel_estimate phase motor_ok
      = ({ e with pos_ctrl_during_sensorless := true }, [], false) := by
    simp [run_sensorless_tick, h]
  refine ⟨h1, ?_⟩
  intro call
  rw [h1]
  simp

/-- C3 witness: the rejection at the concrete mode value 3. -/
theorem sensorless_rejects_position_control_witness :
    CTRL_MODE_POSITION_CONTROL ≤ 3 ∧
    (run_sensorless_tick 3 noError (some 0) 0 0 0 true
        = ({ noError with pos_ctrl_during_sensorless := true }, [], false) ∧
     ∀ call : TickCall, call ∉ (run_sensorless_tick 3 noError (some 0) 0 0 0 true).2.1) :=
  ⟨by decide, sensorless_rejects_position_control 3 noError (some 0) 0 0 0 true (by decide)⟩

/-- C4: in an open-loop tick with motor_.config_.phase_locked set, a
sibling axis that is not in AXIS_STATE_OPEN_LOOP_CONTROL makes the tick
set ERROR_INVALID_STATE and return false (and a false task status puts
IDLE at task-chain position 0); otherwise motor_.phase_setpoint_ is
copied from the sibling (axis.cpp lines 294-309, 455-457). -/
theorem open_loop_phase_locked_sibling (other_current_state : AxisState)
    (ops ovs opp vs cs pp ps dt : ℚ) (wrapFn : ℚ → ℚ) (e : AxisError)
    (motor_ok : Bool) (c : List AxisState) (hc : 0 < c.length) :
    (other_current_state ≠ AxisState.open_loop_control →
       run_open_loop_tick true other_current_state ops ovs opp vs cs pp ps dt wrapFn e
           motor_ok = (setInvalid e, ps, false) ∧
       (advanceChain false c).getD 0 AxisState.undefined = AxisState.idle) ∧
    (other_current_state = AxisState.open_loop_control →
       run_open_loop_tick true other_current_state ops ovs opp vs cs pp ps dt wrapFn e
           motor_ok = (e, ops, motor_ok)) := by
  constructor
  · intro hne
    refine ⟨by simp [run_open_loop_tick, hne], ?_⟩
    simpa [advanceChain] using setIdleHead_getD0 c hc
  · intro heq
    simp [run_open_loop_tick, heq]

/-- C4 witness: sibling in IDLE, concrete rational inputs. -/
theorem open_loop_phase_locked_sibling_witness :
    0 < ([AxisState.open_loop_control, AxisState.idle, AxisState.undefined] :
        List AxisState).length ∧
    (run_open_loop_tick true AxisState.idle 7 0 0 0 0 0 (1/2) 1 id noError true
        = (setInvalid noError, 1/2, false) ∧
     (advanceChain false [AxisState.open_loop_control, AxisState.idle,
        AxisState.undefined]).getD 0 AxisState.undefined = AxisState.idle) :=
  ⟨by decide,
   (open_loop_phase_locked_sibling AxisState.idle 7 0 0 0 0 0 (1/2) 1 id noError true
      [AxisState.open_loop_control, AxisState.idle, AxisState.undefined]
      (by decide)).1 (by decide)⟩

/-- C5: watchdog_check returns true without touching current_value when
reset_value = 0; decrements and returns true when current_value > 0;
otherwise latches WATCHDOG_TIMER_EXPIRED, returns false and leaves
current_value at 0.  The counter never underflows and current_value ≤
reset_value is preserved; watchdog_feed establishes it (axis.cpp lines
168-186). -/
theorem watchdog_check_spec (w : Watchdog) (e : AxisError)
    (hcv : w.current_value < UINT32_MOD) :
    (w.reset_value = 0 → watchdog_check w e = (w, e, true)) ∧
    (w.reset_value ≠ 0 → 0 < w.current_value →
       watchdog_check w e = ({ w with current_value := w.current_value - 1 }, e, true)) ∧
    (w.reset_value ≠ 0 → w.current_value = 0 →
       watchdog_check w e = (w, { e with watchdog_timer_expired := true }, false)) ∧
    (w.current_value ≤ w.reset_value →
       (watchdog_check w e).1.current_value ≤ w.current_value ∧
       (watchdog_check w e).1.current_value ≤ w.reset_value) ∧
    (watchdog_feed w).current_value = w.reset_value := by
  refine ⟨?_, ?_, ?_, ?_, rfl⟩
  · intro h
    simp [watchdog_check, h]
  · intro h h0
    have harith : (w.current_value + (UINT32_MOD - 1)) % UINT32_MOD
        = w.current_value - 1 := by
      unfold UINT32_MOD at hcv ⊢
      omega
    simp [watchdog_check, h, h0, harith]
  · intro h h0
    simp [watchdog_check, h, h0]
  · intro hle
    by_cases h : w.reset_value = 0
    · have hck : watchdog_check w e = (w, e, true) := by simp [watchdog_check, h]
      rw [hck]
      exact ⟨le_refl _, hle⟩
    · by_cases h0 : 0 < w.current_value
      · have harith : (w.current_value + (UINT32_MOD - 1)) % UINT32_MOD
            = w.current_value - 1 := by
          unfold UINT32_MOD at hcv ⊢
          omega
        have hck : watchdog_check w e
            = ({ w with current_value := w.current_value - 1 }, e, true) := by
          simp [watchdog_check, h, h0, harith]
        rw [hck]
        show w.current_value - 1 ≤ w.current_value ∧
          w.current_value - 1 ≤ w.reset_value
        exact ⟨by omega, by omega⟩
      · have hck : watchdog_check w e
            = (w, { e with watchdog_timer_expired := true }, false) := by
          simp [watchdog_check, h, h0]
        rw [hck]
        exact ⟨le_refl _, hle⟩

/-- C5 witness: concrete counters 5 of 10 ticks remaining. -/
theorem watchdog_check_spec_witness :
    (5 : ℕ) < UINT32_MOD ∧
    watchdog_check ⟨10, 5⟩ noError = (⟨10, 4⟩, noError, true) ∧
    (watchdog_feed ⟨10, 5⟩).current_value = 10 := by
  have h := watchdog_check_spec ⟨10, 5⟩ noError (by decide)
  exact ⟨by decide, h.2.1 (by decide) (by decide), h.2.2.2.2⟩

/-- C7: accepting a pending request clears the request mailbox and the
ERROR_INVALID_STATE bit while leaving every other error bit unchanged
(axis.cpp lines 352-379). -/
theorem request_accept_clears_invalid (cfg : AxisConfig) (ui : Bool) (s : SMState)
    (h : s.requested ≠ AxisState.undefined) :
    (acceptRequest cfg ui s).requested = AxisState.undefined ∧
    (acceptRequest cfg ui s).error.invalid_state = false ∧
    (acceptRequest cfg ui s).error.motor_disarmed = s.error.motor_disarmed ∧
    (acceptRequest cfg ui s).error.brake_resistor_disarmed
      = s.error.brake_resistor_disarmed ∧
    (acceptRequest cfg ui s).error.dc_bus_under_voltage = s.error.dc_bus_under_voltage ∧
    (acceptRequest cfg ui s).error.dc_bus_over_voltage = s.error.dc_bus_over_voltage ∧
    (acceptRequest cfg ui s).error.watchdog_timer_expired
      = s.error.watchdog_timer_expired ∧
    (acceptRequest cfg ui s).error.pos_ctrl_during_sensorless
      = s.error.pos_ctrl_during_sensorless ∧
    (acceptRequest cfg ui s).error.controller_failed = s.error.controller_failed ∧
    loadIfRequested cfg ui s = acceptRequest cfg ui s := by
  refine ⟨rfl, rfl, rfl, rfl, rfl, rfl, rfl, rfl, rfl, ?_⟩
  simp [loadIfRequested, h]

/-- C7 witness: a pending CLOSED_LOOP_CONTROL request over a sticky
error bitset with every bit set. -/
theorem request_accept_clears_invalid_witness :
    (⟨[AxisState.idle, AxisState.undefined],
        ⟨true, true, true, true, true, true, true, true⟩,
        AxisState.closed_loop_control⟩ : SMState).requested ≠ AxisState.undefined ∧
    ((acceptRequest cfgAllFalse false
        ⟨[AxisState.idle, AxisState.undefined],
          ⟨true, true, true, true, true, true, true, true⟩,
          AxisState.closed_loop_control⟩).requested = AxisState.undefined ∧
     (acceptRequest cfgAllFalse false
        ⟨[AxisState.idle, AxisState.undefined],
          ⟨true, true, true, true, true, true, true, true⟩,
          AxisState.closed_loop_control⟩).error.invalid_state = false ∧
     (acceptRequest cfgAllFalse false
        ⟨[AxisState.idle, AxisState.undefined],
          ⟨true, true, true, true, true, true, true, true⟩,
          AxisState.closed_loop_control⟩).error.motor_disarmed
       = (⟨true, true, true, true, true, true, true, true⟩ : AxisError).motor_disarmed ∧
     (acceptRequest cfgAllFalse false
        ⟨[AxisState.idle, AxisState.undefined],
          ⟨true, true, true, true, true, true, true, true⟩,
          AxisState.closed_loop_control⟩).error.brake_resistor_disarmed
       = (⟨true, true, true, true, true, true, true, true⟩ :
            AxisError).brake_resistor_disarmed ∧
     (acceptRequest cfgAllFalse false
        ⟨[AxisState.idle, AxisState.undefined],
          ⟨true, true, true, true, true, true, true, true⟩,
          AxisState.closed_loop_control⟩).error.dc_bus_under_voltage
       = (⟨true, true, true, true, true, true, true, true⟩ :
            AxisError).dc_bus_under_voltage ∧
     (acceptRequest cfgAllFalse false
        ⟨[AxisState.idle, AxisState.undefined],
          ⟨true, true, true, true, true, true, true, true⟩,
          AxisState.closed_loop_control⟩).error.dc_bus_over_voltage
       = (⟨true, true, true, true, true, true, true, true⟩ :
            AxisError).dc_bus_over_voltage ∧
     (acceptRequest cfgAllFalse false
        ⟨[AxisState.idle, AxisState.undefined],
          ⟨true, true, true, true, true, true, true, true⟩,
          AxisState.closed_loop_control⟩).error.watchdog_timer_expired
       = (⟨true, true, true, true, true, true, true, true⟩ :
            AxisError).watchdog_timer_expired ∧
     (acceptRequest cfgAllFalse false
        ⟨[AxisState.idle, AxisState.undefined],
          ⟨true, true, true, true, true, true, true, true⟩,
          AxisState.closed_loop_control⟩).error.pos_ctrl_during_sensorless
       = (⟨true, true, true, true, true, true, true, true⟩ :
            AxisError).pos_ctrl_during_sensorless ∧
     (acceptRequest cfgAllFalse false
        ⟨[AxisState.idle, AxisState.undefined],
          ⟨true, true, true, true, true, true, true, true⟩,
          AxisState.closed_loop_control⟩).error.controller_failed
       = (⟨true, true, true, true, true, true, true, true⟩ : AxisError).controller_failed ∧
     loadIfRequested cfgAllFalse false
        ⟨[AxisState.idle, AxisState.undefined],
          ⟨true, true, true, true, true, true, true, true⟩,
          AxisState.closed_loop_control⟩
       = acceptRequest cfgAllFalse false
           ⟨[AxisState.idle, AxisState.undefined],
             ⟨true, true, true, true, true, true, true, true⟩,
             AxisState.closed_loop_control⟩) :=
  ⟨by decide,
   request_accept_clears_invalid cfgAllFalse false
     ⟨[AxisState.idle, AxisState.undefined],
       ⟨true, true, true, true, true, true, true, true⟩,
       AxisState.closed_loop_control⟩ (by decide)⟩

/-- C8: a STARTUP_SEQUENCE request expands to exactly the ordered
subset of startup tasks selected by the startup_* flags (index search
additionally gated on use_index, closed-loop winning over sensorless),
followed by IDLE and the terminating UNDEFINED; with every flag false
the chain is IDLE, UNDEFINED (axis.cpp lines 354-365, 376). -/
theorem startup_sequence_expansion (cfg : AxisConfig) (ui : Bool) :
    expand_request AxisState.startup_sequence cfg ui =
      (if cfg.startup_motor_calibration then [AxisState.motor_calibration] else []) ++
      (if cfg.startup_encoder_index_search && ui then [AxisState.encoder_index_search]
       else []) ++
      (if cfg.startup_encoder_offset_calibration
       then [AxisState.encoder_offset_calibration] else []) ++
      (if cfg.startup_closed_loop_control then [AxisState.closed_loop_control]
       else if cfg.startup_sensorless_control then [AxisState.sensorless_control]
       else []) ++
      [AxisState.idle, AxisState.undefined] ∧
    expand_request AxisState.startup_sequence cfgAllFalse ui
      = [AxisState.idle, AxisState.undefined] := by
  constructor
  · simp [expand_request, expand_core]
  · rfl

/-- C9: if spin_done() already holds when the lock-in accelerate phase
ends, the constant-velocity phase is skipped entirely: no CONST_VEL
state write, no constant-velocity tick, and lockin_state_ goes
straight to INACTIVE (axis.cpp lines 230-248). -/
theorem lockin_skips_const_vel (cfg : LockinConfig) (dt : ℚ) (wrapFn : ℚ → ℚ)
    (motor_ok idxF : ℕ → Bool) (vel distance phase : ℚ) (index_found : Bool)
    (fuel : ℕ) (h : spin_done cfg vel distance index_found false = true) :
    lockin_after_accelerate cfg dt wrapFn motor_ok idxF vel distance phase index_found
        fuel
      = (if !index_found then [LockinEvent.idx_subscribe] else []) ++
        [LockinEvent.set_state LockinState.inactive] ∧
    LockinEvent.set_state LockinState.const_vel ∉
      lockin_after_accelerate cfg dt wrapFn motor_ok idxF vel distance phase index_found
        fuel ∧
    LockinEvent.const_vel_tick ∉
      lockin_after_accelerate cfg dt wrapFn motor_ok idxF vel distance phase index_found
        fuel := by
  have h1 : lockin_after_accelerate cfg dt wrapFn motor_ok idxF vel distance phase
      index_found fuel
      = (if !index_found then [LockinEvent.idx_subscribe] else []) ++
        [LockinEvent.set_state LockinState.inactive] := by
    simp [lockin_after_accelerate, h]
  refine ⟨h1, ?_, ?_⟩ <;> rw [h1] <;> cases index_found <;> simp

/-- C9 witness: finish_on_distance enabled and the travelled distance
already past finish_distance when the accelerate phase ends. -/
theorem lockin_skips_const_vel_witness :
    spin_done ⟨1, 1, 1, 1, 1, 50, false, true, false⟩ 0 100 false false = true ∧
    (lockin_after_accelerate ⟨1, 1, 1, 1, 1, 50, false, true, false⟩ 1 id
        (fun _ => true) (fun _ => false) 0 100 0 false 5
      = (if !false then [LockinEvent.idx_subscribe] else []) ++
        [LockinEvent.set_state LockinState.inactive] ∧
     LockinEvent.set_state LockinState.const_vel ∉
       lockin_after_accelerate ⟨1, 1, 1, 1, 1, 50, false, true, false⟩ 1 id
         (fun _ => true) (fun _ => false) 0 100 0 false 5 ∧
     LockinEvent.const_vel_tick ∉
       lockin_after_accelerate ⟨1, 1, 1, 1, 1, 50, false, true, false⟩ 1 id
         (fun _ => true) (fun _ => false) 0 100 0 false 5) :=
  ⟨by decide,
   lockin_skips_const_vel ⟨1, 1, 1, 1, 1, 50, false, true, false⟩ 1 id
     (fun _ => true) (fun _ => false) 0 100 0 false 5 (by decide)⟩

/-- C10: step_cb leaves controller_.pos_setpoint_ unchanged when
step/dir is inactive, and otherwise adds +counts_per_step when the DIR
pin reads high and -counts_per_step when it reads low (axis.cpp lines
76-82). -/
theorem step_cb_spec (active dir_pin_set : Bool) (counts_per_step pos : ℚ) :
    (active = false → step_cb active dir_pin_set counts_per_step pos = pos) ∧
    (active = true → dir_pin_set = true →
       step_cb active dir_pin_set counts_per_step pos = pos + counts_per_step) ∧
    (active = true → dir_pin_set = false →
       step_cb active dir_pin_set counts_per_step pos = pos - counts_per_step) := by
  refine ⟨?_, ?_, ?_⟩
  · intro h
    simp [step_cb, h]
  · intro h h2
    simp [step_cb, h, h2]
  · intro h h2
    simp [step_cb, h, h2]
    ring

/-- C10 witness: an active rising edge with DIR high at concrete
rational inputs. -/
theorem step_cb_spec_witness : step_cb true true 2 5 = 5 + 2 :=
  (step_cb_spec true true 2 5).2.1 rfl rfl

/-- C1: dispatching AXIS_STATE_IDLE disarms the motor PWM before any
idle tick runs; motor_.arm() is attempted only after the last idle
tick (on leaving idle); and if that arming fails the state machine
puts the axis back at AXIS_STATE_IDLE (axis.cpp lines 315-326,
443-446, 455-457). -/
theorem axis_idle_disarm_and_rearm (n : ℕ) (cfg : AxisConfig) (ui : Bool)
    (env : SMEnv) (t : List AxisState) (s : SMState)
    (hs : s.chain = AxisState.idle :: t) (hq : s.requested = AxisState.undefined)
    (ha : env.armOk = false) :
    (idle_dispatch_events n).getD 0 IdleEvent.disarm = IdleEvent.disarm ∧
    (∀ i, (idle_dispatch_events n).getD i IdleEvent.disarm = IdleEvent.tick → 0 < i) ∧
    (idle_dispatch_events n).getD (n + 1) IdleEvent.disarm = IdleEvent.arm_attempt ∧
    (∀ i, (idle_dispatch_events n).getD i IdleEvent.disarm = IdleEvent.arm_attempt →
       i = n + 1) ∧
    (smStep cfg ui env s).chain.getD 0 AxisState.undefined = AxisState.idle := by
  refine ⟨rfl, ?_, ?_, ?_, ?_⟩
  · intro i hi
    cases i with
    | zero =>
      simp only [idle_dispatch_events, run_idle_loop_events] at hi
      simp at hi
    | succ j => omega
  · simp only [idle_dispatch_events, run_idle_loop_events, List.cons_append,
      List.getD_cons_succ]
    rw [List.getD_append_right _ _ _ _ (by simp)]
    simp
  · intro i hi
    cases i with
    | zero =>
      simp only [idle_dispatch_events, run_idle_loop_events] at hi
      simp at hi
    | succ j =>
      simp only [idle_dispatch_events, run_idle_loop_events, List.cons_append,
        List.getD_cons_succ] at hi
      rcases lt_trichotomy j n with hj | hj | hj
      · rw [List.getD_append _ _ _ _ (by simpa using hj),
          getD_replicate_tick n j hj] at hi
        simp at hi
      · omega
      · rw [List.getD_append_right _ _ _ _ (by simp; omega),
          List.getD_eq_default _ _ (by simp; omega)] at hi
        simp at hi
  · have hcs : s.chain.getD 0 AxisState.undefined = AxisState.idle := by
      rw [hs]
      rfl
    unfold smStep loadIfRequested
    rw [if_pos hq]
    simp only [dispatchAdvance, dispatch, hcs, ha]
    rw [hs]
    simp [advanceChain, setIdleHead]

/-- C1 witness: two idle ticks and a failing arm attempt, on a chain
holding IDLE then the terminator. -/
theorem axis_idle_disarm_and_rearm_witness :
    (⟨[AxisState.idle, AxisState.undefined], noError, AxisState.undefined⟩ :
        SMState).chain = AxisState.idle :: [AxisState.undefined] ∧
    (⟨[AxisState.idle, AxisState.undefined], noError, AxisState.undefined⟩ :
        SMState).requested = AxisState.undefined ∧
    envIdleReq.armOk = false ∧
    ((idle_dispatch_events 2).getD 0 IdleEvent.disarm = IdleEvent.disarm ∧
     (∀ i, (idle_dispatch_events 2).getD i IdleEvent.disarm = IdleEvent.tick → 0 < i) ∧
     (idle_dispatch_events 2).getD (2 + 1) IdleEvent.disarm = IdleEvent.arm_attempt ∧
     (∀ i, (idle_dispatch_events 2).getD i IdleEvent.disarm = IdleEvent.arm_attempt →
        i = 2 + 1) ∧
     (smStep cfgAllFalse false envIdleReq
        ⟨[AxisState.idle, AxisState.undefined], noError,
          AxisState.undefined⟩).chain.getD 0 AxisState.undefined = AxisState.idle) :=
  ⟨rfl, rfl, rfl,
   axis_idle_disarm_and_rearm 2 cfgAllFalse false envIdleReq [AxisState.undefined]
     ⟨[AxisState.idle, AxisState.undefined], noError, AxisState.undefined⟩
     rfl rfl rfl⟩

/-- C2: on task success the chain entries shift left by one
(chain'[i] = chain[i+1]); on task failure position 0 becomes IDLE, and
the entries left behind after position 0 are behaviourally discarded:
the subsequent dispatch trace is identical to that of a chain whose
tail was erased to UNDEFINED (axis.cpp lines 455-459). -/
theorem task_chain_advance (c : List AxisState) (i : ℕ) (hi : i + 1 < c.length)
    (hc : 0 < c.length) (cfg : AxisConfig) (ui : Bool) (t : List AxisState)
    (e : AxisError) (r : AxisState) (envs : ℕ → SMEnv)
    (hv : ∀ k, (envs k).newRequest ≠ AxisState.undefined) (n : ℕ) :
    (advanceChain true c).getD i AxisState.undefined
      = c.getD (i + 1) AxisState.undefined ∧
    (advanceChain false c).getD 0 AxisState.undefined = AxisState.idle ∧
    smTrace cfg ui envs ⟨AxisState.idle :: t, e, r⟩ n =
      smTrace cfg ui envs
        ⟨AxisState.idle :: List.replicate t.length AxisState.undefined, e, r⟩ n := by
  refine ⟨?_, ?_, ?_⟩
  · simpa [advanceChain] using taskShift_getD c i hi
  · simpa [advanceChain] using setIdleHead_getD0 c hc
  · exact smTrace_eq cfg ui envs hv ⟨AxisState.idle :: t, e, r⟩
      ⟨AxisState.idle :: List.replicate t.length AxisState.undefined, e, r⟩
      ⟨rfl, rfl, by simp, by simp, Or.inr (Or.inr ⟨rfl, rfl⟩)⟩ n

/-- C2 witness: a concrete three-entry chain and a three-step trace
after a failure left a stale MOTOR_CALIBRATION entry behind IDLE. -/
theorem task_chain_advance_witness :
    0 + 1 < ([AxisState.closed_loop_control, AxisState.idle, AxisState.undefined] :
        List AxisState).length ∧
    0 < ([AxisState.closed_loop_control, AxisState.idle, AxisState.undefined] :
        List AxisState).length ∧
    (∀ k, (envStream k).newRequest ≠ AxisState.undefined) ∧
    ((advanceChain true
        [AxisState.closed_loop_control, AxisState.idle, AxisState.undefined]).getD 0
          AxisState.undefined
      = ([AxisState.closed_loop_control, AxisState.idle, AxisState.undefined] :
          List AxisState).getD (0 + 1) AxisState.undefined ∧
     (advanceChain false
        [AxisState.closed_loop_control, AxisState.idle, AxisState.undefined]).getD 0
          AxisState.undefined = AxisState.idle ∧
     smTrace cfgAllFalse false envStream
        ⟨AxisState.idle :: [AxisState.motor_calibration], noError,
          AxisState.undefined⟩ 3 =
       smTrace cfgAllFalse false envStream
         ⟨AxisState.idle ::
            List.replicate ([AxisState.motor_calibration] : List AxisState).length
              AxisState.undefined, noError, AxisState.undefined⟩ 3) :=
  ⟨by decide, by decide, fun _ => by simp [envStream, envIdleReq],
   task_chain_advance [AxisState.closed_loop_control, AxisState.idle,
       AxisState.undefined] 0 (by decide) (by decide) cfgAllFalse false
     [AxisState.motor_calibration] noError AxisState.undefined envStream
     (fun _ => by simp [envStream, envIdleReq]) 3⟩

/-- C6 counterexample: with lockin.current = 1, ramp_time = 1,
current_meas_period = 1/4 and ramp_distance = 2π (all positive, as the
claim requires), the wrapped phase magnitude DECREASES between
executed ramp ticks 2 and 3, so |wrap_pm_pi(ramp_distance * x)| is not
monotone non-decreasing during the ramp. -/
theorem lockin_ramp_abs_phase_not_monotone :
    0 < (1 : ℝ) ∧ 0 < (1 : ℝ) ∧ 0 < (1 / 4 : ℝ) ∧ 0 < 2 * Real.pi ∧
    (2 : ℕ) ≤ 3 ∧ ramp_x 1 (1 / 4) 3 < 1 ∧
    ¬ |ramp_phase (2 * Real.pi) 1 (1 / 4) 2| ≤ |ramp_phase (2 * Real.pi) 1 (1 / 4) 3| := by
  have hpi := Real.pi_pos
  have hpine : Real.pi ≠ 0 := ne_of_gt hpi
  have hx2 : ramp_x 1 (1 / 4) 2 = 1 / 2 := by
    rw [ramp_x_eq]
    norm_num
  have hx3 : ramp_x 1 (1 / 4) 3 = 3 / 4 := by
    rw [ramp_x_eq]
    norm_num
  have hfl2 : ⌊(Real.pi + Real.pi) / (2 * Real.pi)⌋ = 1 := by
    have h : (Real.pi + Real.pi) / (2 * Real.pi) = 1 := by
      field_simp
      ring
    rw [h, Int.floor_one]
  have hph2 : ramp_phase (2 * Real.pi) 1 (1 / 4) 2 = -Real.pi := by
    rw [ramp_phase, hx2]
    have harg : 2 * Real.pi * (1 / 2) = Real.pi := by ring
    rw [harg, wrap_pm_pi, hfl2]
    push_cast
    ring
  have hfl3 : ⌊(3 * Real.pi / 2 + Real.pi) / (2 * Real.pi)⌋ = 1 := by
    have h : (3 * Real.pi / 2 + Real.pi) / (2 * Real.pi) = 5 / 4 := by
      field_simp
      ring
    rw [h]
    norm_num [Int.floor_eq_iff]
  have hph3 : ramp_phase (2 * Real.pi) 1 (1 / 4) 3 = -(Real.pi / 2) := by
    rw [ramp_phase, hx3]
    have harg : 2 * Real.pi * (3 / 4) = 3 * Real.pi / 2 := by ring
    rw [harg, wrap_pm_pi, hfl3]
    push_cast
    ring
  refine ⟨by norm_num, by norm_num, by norm_num, by linarith, by norm_num, ?_, ?_⟩
  · rw [hx3]
    norm_num
  · rw [hph2, hph3, abs_neg, abs_neg, abs_of_pos hpi,
      abs_of_pos (by linarith : (0 : ℝ) < Real.pi / 2)]
    simp only [not_le]
    linarith

/-- C6 (amended): with positive lockin.current, ramp_time and
current_meas_period, the commanded current magnitude
I_mag = lockin.current * x is monotone non-decreasing across executed
ramp ticks, and, under the additional hypothesis
ramp_distance ≤ π (so the ramp phase never wraps), the absolute
commanded phase |wrap_pm_pi(ramp_distance * x)| is monotone
non-decreasing as well, up to the tick at which x reaches 1 (axis.cpp
lines 188-199). -/
theorem lockin_ramp_monotone (current ramp_time ramp_distance dt : ℝ)
    (hc : 0 < current) (hrt : 0 < ramp_time) (hdt : 0 < dt)
    (hd : 0 < ramp_distance)
    (m n : ℕ) (hmn : m ≤ n) (hn : ramp_x ramp_time dt n < 1) :
    ramp_I_mag current ramp_time dt m ≤ ramp_I_mag current ramp_time dt n ∧
    (ramp_distance ≤ Real.pi →
      |ramp_phase ramp_distance ramp_time dt m| ≤
        |ramp_phase ramp_distance ramp_time dt n|) := by
  have hpi := Real.pi_pos
  have hxm0 : 0 ≤ ramp_x ramp_time dt m := ramp_x_nonneg _ _ hrt hdt.le m
  have hxn0 : 0 ≤ ramp_x ramp_time dt n := ramp_x_nonneg _ _ hrt hdt.le n
  have hxmono : ramp_x ramp_time dt m ≤ ramp_x ramp_time dt n :=
    ramp_x_mono _ _ hrt hdt.le hmn
  have hxm1 : ramp_x ramp_time dt m < 1 := lt_of_le_of_lt hxmono hn
  have hargm0 : 0 ≤ ramp_distance * ramp_x ramp_time dt m := mul_nonneg hd.le hxm0
  have hargn0 : 0 ≤ ramp_distance * ramp_x ramp_time dt n := mul_nonneg hd.le hxn0
  have hboundm : ramp_distance * ramp_x ramp_time dt m < ramp_distance * 1 :=
    mul_lt_mul_of_pos_left hxm1 hd
  have hboundn : ramp_distance * ramp_x ramp_time dt n < ramp_distance * 1 :=
    mul_lt_mul_of_pos_left hn hd
  constructor
  · exact mul_le_mul_of_nonneg_left hxmono hc.le
  · intro hdpi
    rw [ramp_phase, ramp_phase,
      wrap_pm_pi_eq_self _ (by linarith) (by linarith),
      wrap_pm_pi_eq_self _ (by linarith) (by linarith),
      abs_of_nonneg hargm0, abs_of_nonneg hargn0]
    exact mul_le_mul_of_nonneg_left hxmono hd.le

/-- C6 witness: the amended monotonicity at current = 1, ramp_time = 1,
ramp_distance = 1, dt = 1/4, between ticks 1 and 2, with the
no-wrap side condition 1 ≤ π of the phase conjunct also discharged. -/
theorem lockin_ramp_monotone_witness :
    0 < (1 : ℝ) ∧ 0 < (1 : ℝ) ∧ 0 < (1 / 4 : ℝ) ∧ 0 < (1 : ℝ) ∧
    (1 : ℕ) ≤ 2 ∧ ramp_x 1 (1 / 4) 2 < 1 ∧
    (ramp_I_mag 1 1 (1 / 4) 1 ≤ ramp_I_mag 1 1 (1 / 4) 2 ∧
     ((1 : ℝ) ≤ Real.pi →
       |ramp_phase 1 1 (1 / 4) 1| ≤ |ramp_phase 1 1 (1 / 4) 2|)) ∧
    |ramp_phase 1 1 (1 / 4) 1| ≤ |ramp_phase 1 1 (1 / 4) 2| := by
  have h := lockin_ramp_monotone 1 1 1 (1 / 4) (by norm_num) (by norm_num)
    (by norm_num) (by norm_num) 1 2 (by norm_num) (by rw [ramp_x_eq]; norm_num)
  exact ⟨by norm_num, by norm_num, by norm_num, by norm_num, by norm_num,
    by rw [ramp_x_eq]; norm_num, h, h.2 (by linarith [Real.pi_gt_three])⟩
